import Mathlib

/-!
Shallow embedding of the mcp-brasil Go clients
(pkg/pncp, pkg/transparencia, pkg/ibge, pkg/bcb, pkg/cnpj).

Modelling conventions:
* Go `int` is `Int`; Go `float64` fields are `Float` (never compared by any
  theorem); Go strings are `String`.
* The HTTP transport is a parameter `fetch : String → HTTPResponse` mapping the
  request URL to the upstream status code and raw body.  Request headers and
  transport-level failures (connection errors, body-read errors) are not
  modelled: every claim is about the status/body handling, which is total.
* `json.Unmarshal` into a typed struct is a parameter
  `parse : String → Except String τ` (its error text is what Go wraps with
  "parsing response: ").  `json.Unmarshal` into `interface{}` trees is
  represented by the `Jval` type below; a Go type assertion `x.(T)` with the
  two-value `, ok` form is a checked match, and a single-value assertion that
  can panic is modelled in the `Option` monad where `none` means panic.
* Go number literals inside `interface{}` values (float64) are carried as
  their decimal rendering (`Jval.num lit`); no theorem depends on numeric
  formatting.
-/

/-- An upstream HTTP response: status code and raw body. -/
structure HTTPResponse where
  status : Int
  body : String
deriving Inhabited

/-- The HTTP transport: maps the request URL to the upstream response. -/
abbrev Fetch := String → HTTPResponse

/-- Generic decoded JSON value (Go `interface{}` after `json.Unmarshal`). -/
inductive Jval where
  | null
  | bool (b : Bool)
  | num (lit : String)
  | str (s : String)
  | arr (elems : List Jval)
  | obj (fields : List (String × Jval))
deriving Inhabited

/-- Prefix test on character lists (helper for `strContains`). -/
def charsPrefixOf : List Char → List Char → Bool
  | [], _ => true
  | _ :: _, [] => false
  | a :: as, b :: bs => decide (a = b) && charsPrefixOf as bs

/-- Contiguous-sublist test on character lists (helper for `strContains`). -/
def charsInfixOf (needle : List Char) : List Char → Bool
  | [] => decide (needle = [])
  | c :: rest => charsPrefixOf needle (c :: rest) || charsInfixOf needle rest

/-- Substring test used to state properties about error-message contents. -/
def strContains (hay needle : String) : Bool :=
  charsInfixOf needle.toList hay.toList

/-- Lexicographic comparison on character lists (helper for `encodeParams`;
byte order and character order agree on the ASCII keys used here). -/
def charsLe : List Char → List Char → Bool
  | [], _ => true
  | _ :: _, [] => false
  | a :: as, b :: bs => if a = b then charsLe as bs else decide (a < b)

/-- Insertion of a key/value pair into a key-sorted list (helper for
`encodeParams`). -/
def insertByKey (p : String × String) : List (String × String) → List (String × String)
  | [] => [p]
  | q :: rest =>
      if charsLe p.1.toList q.1.toList then p :: q :: rest else q :: insertByKey p rest

/-- Sort parameters by key, as Go's `url.Values.Encode` does. -/
def sortByKey (params : List (String × String)) : List (String × String) :=
  params.foldr insertByKey []

/-- `url.Values.Encode`: key-sorted `k=v` pairs joined by `&`.
Percent-escaping is not modelled; no theorem depends on it. -/
def encodeParams (params : List (String × String)) : String :=
  String.intercalate "&" ((sortByKey params).map (fun p => p.1 ++ "=" ++ p.2))

namespace Cnpj

/-- `BaseURL` of pkg/cnpj. -/
def BaseURL : String := "https://minhareceita.org"

/-- pkg/cnpj `Partner` (QSA entry). -/
structure Partner where
  nome : String
  cpfRepresentante : String
  nomeRepresentante : String
  qualificacaoSocio : String
  dataEntradaSociedade : String
deriving Inhabited

/-- pkg/cnpj `CNPJData`. -/
structure CNPJData where
  cnpj : String
  razaoSocial : String
  nomeFantasia : String
  situacaoCadastral : Int
  descricaoSituacaoCadastral : String
  dataSituacaoCadastral : String
  atividadePrincipal : List (String × Jval)
  atividadesSecundarias : List (List (String × Jval))
  naturezaJuridica : String
  logradouro : String
  numero : String
  complemento : String
  bairro : String
  municipio : String
  uf : String
  cep : String
  email : String
  telefone : String
  dataAbertura : String
  capitalSocial : Float
  qsa : List Partner
  source : String
deriving Inhabited

/-- The digit test of `formatCNPJ`'s `strings.Map` closure: `r >= '0' && r <= '9'`. -/
def isDigitChar (c : Char) : Bool :=
  decide ('0' ≤ c) && decide (c ≤ '9')

/-- The `strings.Map` call of `formatCNPJ`: remove all non-digits
(kept as a character list; the Go string of ASCII digits has byte length equal
to this list's length). -/
def stripNonDigits (s : String) : List Char :=
  s.toList.filter isDigitChar

/-- The `fmt.Sprintf("%s.%s.%s/%s-%s", digits[0:2], digits[2:5], digits[5:8],
digits[8:12], digits[12:14])` expression of `formatCNPJ`. -/
def cnpjMask (digits : List Char) : String :=
  String.mk (digits.take 2) ++ "." ++ String.mk ((digits.drop 2).take 3) ++ "." ++
    String.mk ((digits.drop 5).take 3) ++ "/" ++ String.mk ((digits.drop 8).take 4) ++
    "-" ++ String.mk ((digits.drop 12).take 2)

/-- pkg/cnpj `formatCNPJ`. -/
def formatCNPJ (cnpj : String) : Except String String :=
  let digits := stripNonDigits cnpj
  if digits.length = 14 then
    Except.ok (cnpjMask digits)
  else
    Except.error ("invalid CNPJ: must have 14 digits, got " ++ toString digits.length)

/-- The request URL of `GetCNPJ`: `fmt.Sprintf("%s/%s", BaseURL, formattedCNPJ)`. -/
def getCNPJURL (formattedCNPJ : String) : String :=
  BaseURL ++ "/" ++ formattedCNPJ

/-- The part of `GetCNPJ` after the HTTP round trip: the 404 branch, the
generic non-200 branch, and the decode of the body. -/
def handleResponse (resp : HTTPResponse) (formattedCNPJ : String)
    (parse : String → Except String CNPJData) : Except String CNPJData :=
  if resp.status = 404 then
    Except.error ("CNPJ not found: " ++ formattedCNPJ)
  else if resp.status ≠ 200 then
    Except.error ("API error (status " ++ toString resp.status ++ "): " ++ resp.body)
  else
    match parse resp.body with
    | Except.error e => Except.error ("parsing response: " ++ e)
    | Except.ok data => Except.ok { data with source := "minhareceita_api" }

/-- pkg/cnpj `GetCNPJ`. -/
def GetCNPJ (fetch : Fetch) (parse : String → Except String CNPJData)
    (cnpj : String) : Except String CNPJData :=
  match formatCNPJ cnpj with
  | Except.error e => Except.error e
  | Except.ok formattedCNPJ =>
      handleResponse (fetch (getCNPJURL formattedCNPJ)) formattedCNPJ parse

end Cnpj

namespace Bcb

/-- `SGSURL` of pkg/bcb. -/
def SGSURL : String := "https://api.bcb.gov.br/dados/serie/bcdata.sgs"

/-- `OlindaURL` of pkg/bcb. -/
def OlindaURL : String := "https://olinda.bcb.gov.br/olinda/servico"

/-- pkg/bcb `SeriesCodes`: the fixed indicator-name table (Go map literal,
rendered as an association list). -/
def SeriesCodes : List (String × Int) :=
  [("selic", 11), ("selic_monthly", 4390), ("ipca", 433), ("igpm", 189), ("cdi", 12)]

/-- Go map lookup `SeriesCodes[indicator]` with its `ok` flag. -/
def seriesCodeOf (indicator : String) : Option Int :=
  (SeriesCodes.find? (fun p => p.1 == indicator)).map (fun p => p.2)

/-- pkg/bcb `DataPoint`. -/
structure DataPoint where
  date : String
  value : String
deriving Inhabited

/-- pkg/bcb `IndicatorResponse`. -/
structure IndicatorResponse where
  indicator : String
  data : List DataPoint
  total : Int
  source : String
deriving Inhabited

/-- pkg/bcb `ExchangeRate`. -/
structure ExchangeRate where
  dateTime : String
  buyRate : Float
  sellRate : Float
  bulletinType : String
deriving Inhabited

/-- pkg/bcb `ExchangeRateResponse`. -/
structure ExchangeRateResponse where
  currency : String
  date : String
  rates : List ExchangeRate
  source : String
deriving Inhabited

/-- pkg/bcb `PIXStats` (`Data` is a decoded `map[string]interface{}`). -/
structure PIXStats where
  totalTransactions : Int
  totalValue : Float
  data : Jval
deriving Inhabited

/-- pkg/bcb `PIXResponse`. -/
structure PIXResponse where
  stats : PIXStats
  source : String
deriving Inhabited

/-- pkg/bcb `doRequest`: non-200 statuses become the generic API error. -/
def doRequest (fetch : Fetch) (url : String) : Except String String :=
  let resp := fetch url
  if resp.status ≠ 200 then
    Except.error ("API error (status " ++ toString resp.status ++ "): " ++ resp.body)
  else
    Except.ok resp.body

/-- pkg/bcb `GetIndicator`. -/
def GetIndicator (fetch : Fetch) (parse : String → Except String (List DataPoint))
    (indicator : String) (lastN : Int) : Except String IndicatorResponse :=
  match seriesCodeOf indicator with
  | none =>
      Except.error ("unknown indicator: " ++ indicator ++
        ". Available: selic, selic_monthly, ipca, igpm, cdi")
  | some seriesCode =>
      let lastN := if lastN ≤ 0 then 30 else lastN
      let url := SGSURL ++ "." ++ toString seriesCode ++ "/dados/ultimos/" ++
        toString lastN ++ "?formato=json"
      match doRequest fetch url with
      | Except.error e => Except.error e
      | Except.ok body =>
          match parse body with
          | Except.error e => Except.error ("parsing response: " ++ e)
          | Except.ok data =>
              Except.ok { indicator := indicator, data := data,
                          total := (data.length : Int), source := "bcb_api" }

/-- pkg/bcb `GetSELIC`. -/
def GetSELIC (fetch : Fetch) (parse : String → Except String (List DataPoint))
    (lastN : Int) : Except String IndicatorResponse :=
  GetIndicator fetch parse "selic" lastN

/-- pkg/bcb `GetIPCA`. -/
def GetIPCA (fetch : Fetch) (parse : String → Except String (List DataPoint))
    (lastN : Int) : Except String IndicatorResponse :=
  GetIndicator fetch parse "ipca" lastN

/-- pkg/bcb `GetExchangeRate`.  `todayStr` stands for
`time.Now().Format("01-02-2006")`, used only as the default date. -/
def GetExchangeRate (fetch : Fetch) (parse : String → Except String (List ExchangeRate))
    (todayStr currency date : String) : Except String ExchangeRateResponse :=
  let currency := if currency = "" then "USD" else currency
  let date := if date = "" then todayStr else date
  let url := OlindaURL ++
    "/PTAX/versao/v1/odata/CotacaoMoedaDia(moeda=@moeda,dataCotacao=@dataCotacao)?@moeda=\x27" ++
    currency ++ "\x27&@dataCotacao=\x27" ++ date ++ "\x27&$format=json"
  match doRequest fetch url with
  | Except.error e => Except.error e
  | Except.ok body =>
      match parse body with
      | Except.error e => Except.error ("parsing response: " ++ e)
      | Except.ok result =>
          Except.ok { currency := currency, date := date, rates := result,
                      source := "bcb_api" }

/-- pkg/bcb `GetPIXStats` (the other `PIXStats` fields keep their Go zero
values). -/
def GetPIXStats (fetch : Fetch)
    (parse : String → Except String (List (String × Jval))) : Except String PIXResponse :=
  let url := OlindaURL ++
    "/Pix_DadosAbertos/versao/v1/odata/EstatisticasTransacoesPix(Database=@Database)?@Database=\x27202401\x27&$format=json"
  match doRequest fetch url with
  | Except.error e => Except.error e
  | Except.ok body =>
      match parse body with
      | Except.error e => Except.error ("parsing response: " ++ e)
      | Except.ok result =>
          Except.ok { stats := { totalTransactions := 0, totalValue := 0,
                                 data := Jval.obj result },
                      source := "bcb_api" }

end Bcb

namespace Pncp

/-- `BaseURL` of pkg/pncp. -/
def BaseURL : String := "https://pncp.gov.br/api/consulta/v1"

/-- pkg/pncp `Modalities` (Go map literal, rendered as an association list). -/
def Modalities : List (String × Int) :=
  [("pregao_eletronico", 6), ("concorrencia_eletronica", 1), ("concorrencia", 2),
   ("concurso", 3), ("leilao_eletronico", 4), ("leilao", 5),
   ("dialogo_competitivo", 7), ("credenciamento", 8)]

/-- pkg/pncp `ContractPublication`. -/
structure ContractPublication where
  sequencialCompra : Int
  numeroCompra : String
  anoCompra : Int
  orgaoEntidade : List (String × Jval)
  modalidadeID : Int
  modalidadeNome : String
  situacaoCompraID : Int
  situacaoCompraNome : String
  numeroControlePNCP : String
  dataPublicacaoPncp : String
  dataAberturaProposta : String
  dataEncerramentoProposta : String
  objetoCompra : String
  valorTotalEstimado : Float
  valorTotalHomologado : Float
deriving Inhabited

/-- pkg/pncp `ContractsResponse`. -/
structure ContractsResponse where
  contracts : List ContractPublication
  total : Int
  page : Int
  pageSize : Int
  source : String
deriving Inhabited

/-- pkg/pncp `PriceRegistration`. -/
structure PriceRegistration where
  numeroControlePNCP : String
  orgaoEntidade : List (String × Jval)
  numeroAta : String
  anoAta : Int
  dataPublicacaoPncp : String
  dataVigenciaInicio : String
  dataVigenciaFim : String
  objetoAta : String
  valorTotalEstimado : Float
deriving Inhabited

/-- pkg/pncp `PriceRegistrationsResponse` (note: it has no page-size field). -/
structure PriceRegistrationsResponse where
  registrations : List PriceRegistration
  total : Int
  page : Int
  source : String
deriving Inhabited

/-- The anonymous decode target of `SearchContracts`: `data` plus
`totalRegistros`. -/
structure ContractsPayload where
  data : List ContractPublication
  totalRegistros : Int
deriving Inhabited

/-- pkg/pncp `doRequest`: URL assembly plus the non-200 check. -/
def doRequest (fetch : Fetch) (endpoint : String)
    (params : List (String × String)) : Except String String :=
  let reqURL := BaseURL ++ endpoint
  let reqURL := if params.length > 0 then reqURL ++ "?" ++ encodeParams params else reqURL
  let resp := fetch reqURL
  if resp.status ≠ 200 then
    Except.error ("API error (status " ++ toString resp.status ++ "): " ++ resp.body)
  else
    Except.ok resp.body

/-- The defaulted inputs and assembled query of `SearchContracts` (the part of
the Go function before the `doRequest` call). -/
structure ContractsRequest where
  page : Int
  pageSize : Int
  modalityCode : Int
  params : List (String × String)

/-- Defaulting/clamping and query assembly of pkg/pncp `SearchContracts`. -/
def searchContractsRequest (startDate endDate : String) (modalityCode : Int)
    (state : String) (page pageSize : Int) : ContractsRequest :=
  let pageSize := if pageSize < 10 then 10 else if pageSize > 500 then 500 else pageSize
  let page := if page < 1 then 1 else page
  let modalityCode := if modalityCode = 0 then 6 else modalityCode
  { page := page, pageSize := pageSize, modalityCode := modalityCode,
    params :=
      [("dataInicial", startDate), ("dataFinal", endDate),
       ("codigoModalidadeContratacao", toString modalityCode),
       ("tamanhoPagina", toString pageSize), ("pagina", toString page)] ++
      (if state ≠ "" then [("uf", state)] else []) }

/-- pkg/pncp `SearchContracts`. -/
def SearchContracts (fetch : Fetch) (parse : String → Except String ContractsPayload)
    (startDate endDate : String) (modalityCode : Int) (state : String)
    (page pageSize : Int) : Except String ContractsResponse :=
  let r := searchContractsRequest startDate endDate modalityCode state page pageSize
  match doRequest fetch "/contratacoes/publicacao" r.params with
  | Except.error e => Except.error e
  | Except.ok body =>
      match parse body with
      | Except.error e => Except.error ("parsing response: " ++ e)
      | Except.ok result =>
          Except.ok { contracts := result.data, total := result.totalRegistros,
                      page := r.page, pageSize := r.pageSize, source := "pncp_api" }

/-- The defaulted inputs and assembled query of `SearchPriceRegistrations`. -/
structure PriceRegsRequest where
  page : Int
  pageSize : Int
  params : List (String × String)

/-- Defaulting/clamping and query assembly of pkg/pncp
`SearchPriceRegistrations`. -/
def searchPriceRegistrationsRequest (state : String)
    (page pageSize : Int) : PriceRegsRequest :=
  let pageSize := if pageSize < 10 then 10 else if pageSize > 500 then 500 else pageSize
  let page := if page < 1 then 1 else page
  { page := page, pageSize := pageSize,
    params :=
      [("tamanhoPagina", toString pageSize), ("pagina", toString page)] ++
      (if state ≠ "" then [("uf", state)] else []) }

/-- pkg/pncp `SearchPriceRegistrations`. -/
def SearchPriceRegistrations (fetch : Fetch)
    (parse : String → Except String (List PriceRegistration))
    (state : String) (page pageSize : Int) : Except String PriceRegistrationsResponse :=
  let r := searchPriceRegistrationsRequest state page pageSize
  match doRequest fetch "/atas-registro-preco" r.params with
  | Except.error e => Except.error e
  | Except.ok body =>
      match parse body with
      | Except.error e => Except.error ("parsing response: " ++ e)
      | Except.ok result =>
          Except.ok { registrations := result, total := (result.length : Int),
                      page := r.page, source := "pncp_api" }

/-- pkg/pncp `ListModalities`. -/
def ListModalities : List (String × Int) := Modalities

end Pncp

namespace Transparencia

/-- `BaseURL` of pkg/transparencia (`NewClient` copies it into the client). -/
def BaseURL : String := "https://api.portaldatransparencia.gov.br/api-de-dados"

/-- pkg/transparencia `KnownOrgaos` (Go map literal, rendered as an
association list). -/
def KnownOrgaos : List (String × String) :=
  [("36000", "Ministério da Saúde"), ("26000", "Ministério da Educação"),
   ("25000", "Ministério da Economia"), ("30000", "Ministério da Justiça"),
   ("52000", "Ministério da Defesa"), ("35000", "Ministério das Relações Exteriores"),
   ("44000", "Ministério do Meio Ambiente")]

/-- Go map index `KnownOrgaos[orgaoCode]` (zero value `""` when absent). -/
def knownOrgaoName (code : String) : String :=
  match KnownOrgaos.find? (fun p => p.1 == code) with
  | some p => p.2
  | none => ""

/-- pkg/transparencia `doRequest`: URL assembly plus the non-200 check
(headers, including the API key, are not modelled). -/
def doRequest (fetch : Fetch) (endpoint : String)
    (params : List (String × String)) : Except String String :=
  let reqURL := BaseURL ++ endpoint
  let reqURL := if params.length > 0 then reqURL ++ "?" ++ encodeParams params else reqURL
  let resp := fetch reqURL
  if resp.status ≠ 200 then
    Except.error ("API error (status " ++ toString resp.status ++ "): " ++ resp.body)
  else
    Except.ok resp.body

/-- pkg/transparencia `Contract`. -/
structure Contract where
  id : Int
  numero : String
  objeto : String
  numeroProcesso : String
  fundamentoLegal : String
  dataAssinatura : String
  dataVigenciaInicio : String
  dataVigenciaFim : String
  valorInicial : Float
  situacao : String
  modalidadeCompra : String
  codigoOrgao : String
  nomeOrgao : String
  cnpjFornecedor : String
  nomeFornecedor : String
deriving Inhabited

/-- pkg/transparencia `ContractsResponse`. -/
structure ContractsResponse where
  contracts : List Contract
  total : Int
  page : Int
  pageSize : Int
  orgaoCode : String
  orgaoName : String
  source : String
deriving Inhabited

/-- The defaulted inputs and assembled query of a transparencia search. -/
structure SearchRequest where
  primary : String
  page : Int
  pageSize : Int
  params : List (String × String)

/-- Defaulting and query assembly of pkg/transparencia `SearchContracts`
(`primary` is the defaulted `orgaoCode`). -/
def searchContractsRequest (orgaoCode : String) (page pageSize : Int) : SearchRequest :=
  let orgaoCode := if orgaoCode = "" then "36000" else orgaoCode
  let page := if page < 1 then 1 else page
  let pageSize := if pageSize < 1 || pageSize > 500 then 100 else pageSize
  { primary := orgaoCode, page := page, pageSize := pageSize,
    params := [("codigoOrgao", orgaoCode), ("pagina", toString page),
               ("tamanhoPagina", toString pageSize)] }

/-- pkg/transparencia `SearchContracts`. -/
def SearchContracts (fetch : Fetch) (parse : String → Except String (List Contract))
    (orgaoCode : String) (page pageSize : Int) : Except String ContractsResponse :=
  let r := searchContractsRequest orgaoCode page pageSize
  match doRequest fetch "/contratos" r.params with
  | Except.error e => Except.error e
  | Except.ok body =>
      match parse body with
      | Except.error e => Except.error ("parsing response: " ++ e)
      | Except.ok contracts =>
          let orgaoName := knownOrgaoName r.primary
          let orgaoName := if orgaoName = "" then "Orgao Desconhecido" else orgaoName
          Except.ok { contracts := contracts, total := (contracts.length : Int),
                      page := r.page, pageSize := r.pageSize, orgaoCode := r.primary,
                      orgaoName := orgaoName, source := "portal_transparencia_api" }

/-- pkg/transparencia `Servidor`. -/
structure Servidor where
  id : Int
  cpf : String
  nome : String
  matricula : String
  codigoOrgao : String
  nomeOrgao : String
  codigoUorg : String
  nomeUorg : String
  tipoVinculo : String
  situacaoVinculo : String
  dataIngressoCarg : String
deriving Inhabited

/-- pkg/transparencia `ServidoresResponse`. -/
structure ServidoresResponse where
  servidores : List Servidor
  total : Int
  page : Int
  pageSize : Int
  source : String
deriving Inhabited

/-- Defaulting and query assembly of pkg/transparencia `SearchServidores`
(`primary` is `nome`; the empty-name check stays in the operation). -/
def searchServidoresRequest (nome : String) (page pageSize : Int) : SearchRequest :=
  let page := if page < 1 then 1 else page
  let pageSize := if pageSize < 1 || pageSize > 500 then 100 else pageSize
  { primary := nome, page := page, pageSize := pageSize,
    params := [("nome", nome), ("pagina", toString page),
               ("tamanhoPagina", toString pageSize)] }

/-- pkg/transparencia `SearchServidores`. -/
def SearchServidores (fetch : Fetch) (parse : String → Except String (List Servidor))
    (nome : String) (page pageSize : Int) : Except String ServidoresResponse :=
  if nome = "" then Except.error "nome is required"
  else
    let r := searchServidoresRequest nome page pageSize
    match doRequest fetch "/servidores" r.params with
    | Except.error e => Except.error e
    | Except.ok body =>
        match parse body with
        | Except.error e => Except.error ("parsing response: " ++ e)
        | Except.ok servidores =>
            Except.ok { servidores := servidores, total := (servidores.length : Int),
                        page := r.page, pageSize := r.pageSize,
                        source := "portal_transparencia_api" }

/-- pkg/transparencia `Remuneracao`. -/
structure Remuneracao where
  mesAno : String
  remuneracaoBasicaBruta : Float
  abateGratificacao : Float
  gratificacaoNatalina : Float
  abateTeto : Float
  rendimentoLiquido : Float
deriving Inhabited

/-- pkg/transparencia `RemuneracaoResponse`. -/
structure RemuneracaoResponse where
  cpf : String
  remuneracao : List Remuneracao
  mesAno : String
  source : String
deriving Inhabited

/-- pkg/transparencia `GetServidorRemuneracao`.  `lastMonthStr` stands for
`time.Now().AddDate(0, -1, 0).Format("01/2006")`, used only as the default
`mesAno`. -/
def GetServidorRemuneracao (fetch : Fetch)
    (parse : String → Except String (List Remuneracao))
    (lastMonthStr cpf mesAno : String) : Except String RemuneracaoResponse :=
  if cpf = "" then Except.error "cpf is required"
  else
    let mesAno := if mesAno = "" then lastMonthStr else mesAno
    let params := [("mesAno", mesAno)]
    let endpoint := "/servidores/" ++ cpf ++ "/remuneracao"
    match doRequest fetch endpoint params with
    | Except.error e => Except.error e
    | Except.ok body =>
        match parse body with
        | Except.error e => Except.error ("parsing response: " ++ e)
        | Except.ok remuneracoes =>
            Except.ok { cpf := cpf, remuneracao := remuneracoes, mesAno := mesAno,
                        source := "portal_transparencia_api" }

/-- pkg/transparencia `Convenio`. -/
structure Convenio where
  numero : String
  objeto : String
  situacaoConveni : String
  valorLiberado : Float
  valorConvenio : Float
  uf : String
  municipio : String
  orgaoSuperior : String
  dataInicio : String
  dataFim : String
deriving Inhabited

/-- pkg/transparencia `ConveniosResponse`. -/
structure ConveniosResponse where
  convenios : List Convenio
  total : Int
  page : Int
  pageSize : Int
  uf : String
  source : String
deriving Inhabited

/-- Defaulting and query assembly of pkg/transparencia `SearchConvenios`
(`primary` is the defaulted `uf`). -/
def searchConveniosRequest (uf : String) (page pageSize : Int) : SearchRequest :=
  let uf := if uf = "" then "MG" else uf
  let page := if page < 1 then 1 else page
  let pageSize := if pageSize < 1 || pageSize > 500 then 100 else pageSize
  { primary := uf, page := page, pageSize := pageSize,
    params := [("uf", uf), ("pagina", toString page),
               ("tamanhoPagina", toString pageSize)] }

/-- pkg/transparencia `SearchConvenios`. -/
def SearchConvenios (fetch : Fetch) (parse : String → Except String (List Convenio))
    (uf : String) (page pageSize : Int) : Except String ConveniosResponse :=
  let r := searchConveniosRequest uf page pageSize
  match doRequest fetch "/convenios" r.params with
  | Except.error e => Except.error e
  | Except.ok body =>
      match parse body with
      | Except.error e => Except.error ("parsing response: " ++ e)
      | Except.ok convenios =>
          Except.ok { convenios := convenios, total := (convenios.length : Int),
                      page := r.page, pageSize := r.pageSize, uf := r.primary,
                      source := "portal_transparencia_api" }

/-- pkg/transparencia `CEIS`. -/
structure CEIS where
  cnpj : String
  razaoSocial : String
  nomeFantasia : String
  tipoSancao : String
  dataInicioSanca : String
  dataFimSancao : String
  orgaoSancionado : String
deriving Inhabited

/-- pkg/transparencia `CEISResponse`. -/
structure CEISResponse where
  empresas : List CEIS
  total : Int
  page : Int
  pageSize : Int
  source : String
deriving Inhabited

/-- Defaulting and query assembly of pkg/transparencia `SearchCEIS`
(`primary` is the `cnpj` filter; it is added to the query only when
non-empty). -/
def searchCEISRequest (cnpj : String) (page pageSize : Int) : SearchRequest :=
  let page := if page < 1 then 1 else page
  let pageSize := if pageSize < 1 || pageSize > 500 then 100 else pageSize
  { primary := cnpj, page := page, pageSize := pageSize,
    params := (if cnpj ≠ "" then [("cnpj", cnpj)] else []) ++
              [("pagina", toString page), ("tamanhoPagina", toString pageSize)] }

/-- pkg/transparencia `SearchCEIS`. -/
def SearchCEIS (fetch : Fetch) (parse : String → Except String (List CEIS))
    (cnpj : String) (page pageSize : Int) : Except String CEISResponse :=
  let r := searchCEISRequest cnpj page pageSize
  match doRequest fetch "/ceis" r.params with
  | Except.error e => Except.error e
  | Except.ok body =>
      match parse body with
      | Except.error e => Except.error ("parsing response: " ++ e)
      | Except.ok empresas =>
          Except.ok { empresas := empresas, total := (empresas.length : Int),
                      page := r.page, pageSize := r.pageSize,
                      source := "portal_transparencia_api" }

end Transparencia

namespace Ibge

/-- `LocalidadesURL` of pkg/ibge. -/
def LocalidadesURL : String := "https://servicodados.ibge.gov.br/api/v1/localidades"

/-- `AgregadosURL` of pkg/ibge. -/
def AgregadosURL : String := "https://servicodados.ibge.gov.br/api/v3/agregados"

/-- pkg/ibge `Region`. -/
structure Region where
  id : Int
  nome : String
deriving Inhabited

/-- pkg/ibge `State`. -/
structure State where
  id : Int
  sigla : String
  nome : String
  regiao : Region
deriving Inhabited

/-- The anonymous `Microrregiao` struct nested in pkg/ibge `Municipality`. -/
structure Microrregiao where
  id : Int
  nome : String
deriving Inhabited

/-- pkg/ibge `Municipality`. -/
structure Municipality where
  id : Int
  nome : String
  microrregiao : Microrregiao
deriving Inhabited

/-- pkg/ibge `StatesResponse`. -/
structure StatesResponse where
  states : List State
  total : Int
  source : String
deriving Inhabited

/-- pkg/ibge `MunicipalitiesResponse`. -/
structure MunicipalitiesResponse where
  municipalities : List Municipality
  total : Int
  stateID : String
  source : String
deriving Inhabited

/-- pkg/ibge `PopulationData`. -/
structure PopulationData where
  location : String
  year : String
  population : String
deriving Inhabited, DecidableEq

/-- pkg/ibge `PopulationResponse`. -/
structure PopulationResponse where
  data : List PopulationData
  source : String
deriving Inhabited

/-- pkg/ibge `doRequest`: non-200 statuses become the generic API error. -/
def doRequest (fetch : Fetch) (url : String) : Except String String :=
  let resp := fetch url
  if resp.status ≠ 200 then
    Except.error ("API error (status " ++ toString resp.status ++ "): " ++ resp.body)
  else
    Except.ok resp.body

/-- pkg/ibge `GetStates`. -/
def GetStates (fetch : Fetch)
    (parse : String → Except String (List State)) : Except String StatesResponse :=
  let url := LocalidadesURL ++ "/estados?orderBy=nome"
  match doRequest fetch url with
  | Except.error e => Except.error e
  | Except.ok body =>
      match parse body with
      | Except.error e => Except.error ("parsing response: " ++ e)
      | Except.ok states =>
          Except.ok { states := states, total := (states.length : Int),
                      source := "ibge_api" }

/-- pkg/ibge `GetMunicipalities`. -/
def GetMunicipalities (fetch : Fetch)
    (parse : String → Except String (List Municipality))
    (stateID : String) : Except String MunicipalitiesResponse :=
  let url :=
    if stateID ≠ "" then
      LocalidadesURL ++ "/estados/" ++ stateID ++ "/municipios?orderBy=nome"
    else
      LocalidadesURL ++ "/municipios?orderBy=nome"
  match doRequest fetch url with
  | Except.error e => Except.error e
  | Except.ok body =>
      match parse body with
      | Except.error e => Except.error ("parsing response: " ++ e)
      | Except.ok municipalities =>
          Except.ok { municipalities := municipalities,
                      total := (municipalities.length : Int),
                      stateID := stateID, source := "ibge_api" }

/-- Go type assertion `x.(map[string]interface{})` (value form). -/
def asObj : Jval → Option (List (String × Jval))
  | Jval.obj fields => some fields
  | _ => none

/-- Go type assertion `x.([]interface{})` (value form). -/
def asArr : Jval → Option (List Jval)
  | Jval.arr elems => some elems
  | _ => none

/-- Go type assertion `x.(string)` (value form). -/
def asStr : Jval → Option String
  | Jval.str s => some s
  | _ => none

/-- Go map index on a decoded object: a missing key yields the nil
interface. -/
def jlookup (fields : List (String × Jval)) (key : String) : Jval :=
  match fields.find? (fun p => p.1 == key) with
  | some p => p.2
  | none => Jval.null

/-- `fmt.Sprintf("%v", pop)` on a decoded value.  Only scalar renderings are
meaningful; no theorem depends on the rendering of composite values. -/
def jrender : Jval → String
  | Jval.null => "<nil>"
  | Jval.bool b => if b then "true" else "false"
  | Jval.num lit => lit
  | Jval.str s => s
  | Jval.arr _ => "[...]"
  | Jval.obj _ => "map[...]"

/-- The inner `for year, pop := range serieData` loop of `GetPopulation`.
`localidade["nome"].(string)` is a single-value type assertion evaluated on
each iteration: `none` models the Go panic when it fails.  (Go map iteration
order is unspecified; the field-list order stands in for it, and no theorem
depends on the order.) -/
def extractYears (nomeVal : Jval) : List (String × Jval) → Option (List PopulationData)
  | [] => some []
  | (year, pop) :: rest =>
      match asStr nomeVal with
      | none => none
      | some nome =>
          match extractYears nomeVal rest with
          | none => none
          | some tail =>
              some ({ location := nome, year := year, population := jrender pop } :: tail)

/-- The `for _, s := range series` loop of `GetPopulation`.
`s.(map[string]interface{})` and `serie["localidade"].(map[string]interface{})`
are single-value type assertions (`none` models the Go panic); the
`serie["serie"].(map[string]interface{})` assertion uses the checked `, ok`
form and skips the entry when it fails. -/
def extractSeriesList : List Jval → Option (List PopulationData)
  | [] => some []
  | s :: rest =>
      match asObj s with
      | none => none
      | some serie =>
          match asObj (jlookup serie "localidade") with
          | none => none
          | some localidade =>
              let here :=
                match asObj (jlookup serie "serie") with
                | some serieData => extractYears (jlookup localidade "nome") serieData
                | none => some []
              match here with
              | none => none
              | some hereData =>
                  match extractSeriesList rest with
                  | none => none
                  | some tail => some (hereData ++ tail)

/-- The extraction pass of `GetPopulation` over the decoded
`[]map[string]interface{}` payload.  The outer
`result[0]["resultados"].([]interface{})` assertion is checked (`, ok`), the
`resultados[0].(map[string]interface{})` assertion is single-value (`none`
models the Go panic). -/
def extractPopulation (result : List (List (String × Jval))) : Option (List PopulationData) :=
  match result with
  | [] => some []
  | first :: _ =>
      match asArr (jlookup first "resultados") with
      | some (r0 :: _) =>
          match asObj r0 with
          | none => none
          | some r0obj =>
              match asArr (jlookup r0obj "series") with
              | some series => extractSeriesList series
              | none => some []
      | _ => some []

/-- pkg/ibge `GetPopulation`.  The outer `Option` models Go panics in the
extraction pass (`none` = panic); `some` carries the Go return value. -/
def GetPopulation (fetch : Fetch)
    (parse : String → Except String (List (List (String × Jval))))
    (locationID : String) : Option (Except String PopulationResponse) :=
  let url :=
    if locationID ≠ "" then
      AgregadosURL ++ "/6579/periodos/-6/variaveis/9324?localidades=N6[" ++ locationID ++ "]"
    else
      AgregadosURL ++ "/6579/periodos/-6/variaveis/9324?localidades=N1[all]"
  match doRequest fetch url with
  | Except.error e => some (Except.error e)
  | Except.ok body =>
      match parse body with
      | Except.error e => some (Except.error ("parsing response: " ++ e))
      | Except.ok result =>
          match extractPopulation result with
          | none => none
          | some data =>
              some (Except.ok { data := data, source := "ibge_api" })

end Ibge

/-! ## Helper lemmas -/

/-- `String.toList` distributes over append. -/
theorem toList_append (a b : String) : (a ++ b).toList = a.toList ++ b.toList :=
  String.data_append a b

/-- `String.toList` of a character-list literal string. -/
theorem toList_mk (l : List Char) : (String.mk l).toList = l := rfl

/-- Every character surviving the digit filter is a digit. -/
theorem mem_stripNonDigits (s : String) {c : Char} (hc : c ∈ Cnpj.stripNonDigits s) :
    Cnpj.isDigitChar c = true :=
  (List.mem_filter.mp hc).2

/-- Stripping non-digits from a masked CNPJ recovers the digit slices. -/
theorem strip_cnpjMask (d : List Char) (hd : ∀ c ∈ d, Cnpj.isDigitChar c = true) :
    Cnpj.stripNonDigits (Cnpj.cnpjMask d) =
      d.take 2 ++ ((d.drop 2).take 3 ++ ((d.drop 5).take 3 ++
        ((d.drop 8).take 4 ++ (d.drop 12).take 2))) := by
  have hpiece : ∀ l : List Char, (∀ c ∈ l, Cnpj.isDigitChar c = true) →
      List.filter Cnpj.isDigitChar l = l := fun l hl => List.filter_eq_self.mpr hl
  have h1 := hpiece (d.take 2) (fun c hc => hd c (List.mem_of_mem_take hc))
  have h2 := hpiece ((d.drop 2).take 3)
    (fun c hc => hd c (List.mem_of_mem_drop (List.mem_of_mem_take hc)))
  have h3 := hpiece ((d.drop 5).take 3)
    (fun c hc => hd c (List.mem_of_mem_drop (List.mem_of_mem_take hc)))
  have h4 := hpiece ((d.drop 8).take 4)
    (fun c hc => hd c (List.mem_of_mem_drop (List.mem_of_mem_take hc)))
  have h5 := hpiece ((d.drop 12).take 2)
    (fun c hc => hd c (List.mem_of_mem_drop (List.mem_of_mem_take hc)))
  have hdot : List.filter Cnpj.isDigitChar ".".toList = [] := rfl
  have hslash : List.filter Cnpj.isDigitChar "/".toList = [] := rfl
  have hdash : List.filter Cnpj.isDigitChar "-".toList = [] := rfl
  show ((Cnpj.cnpjMask d).toList).filter Cnpj.isDigitChar = _
  unfold Cnpj.cnpjMask
  simp only [toList_append, List.filter_append, toList_mk, hdot, hslash, hdash,
    h1, h2, h3, h4, h5, List.append_nil, List.nil_append, List.append_assoc]

/-- The five mask slices of a 14-digit list reassemble to the list. -/
theorem pieces_assemble (d : List Char) (hlen : d.length = 14) :
    d.take 2 ++ ((d.drop 2).take 3 ++ ((d.drop 5).take 3 ++
      ((d.drop 8).take 4 ++ (d.drop 12).take 2))) = d := by
  have h12 : (d.drop 12).take 2 = d.drop 12 :=
    List.take_of_length_le (by simp [hlen])
  have e5 : (d.drop 8).take 4 ++ d.drop 12 = d.drop 8 := by
    have h := List.take_append_drop 4 (d.drop 8)
    rwa [List.drop_drop] at h
  have e3 : (d.drop 5).take 3 ++ d.drop 8 = d.drop 5 := by
    have h := List.take_append_drop 3 (d.drop 5)
    rwa [List.drop_drop] at h
  have e2 : (d.drop 2).take 3 ++ d.drop 5 = d.drop 2 := by
    have h := List.take_append_drop 3 (d.drop 2)
    rwa [List.drop_drop] at h
  rw [h12, e5, e3, e2]
  exact List.take_append_drop 2 d

/-! ## Claims -/

/-- C3: stripping non-digits and requiring exactly 14 digits decides
`GetCNPJ`'s outcome: with 14 digits the identifier is masked as
XX.XXX.XXX/XXXX-XX and the request is issued at exactly the masked URL
(`"12345678000190"` becomes `"12.345.678/0001-90"`); with any other digit
count `GetCNPJ` fails with a validation error reporting the digit count,
independently of the transport (so before any request is issued), e.g.
`"1234"` reports digit count 4. -/
theorem c3_cnpj_normalization (s : String) (fetch : Fetch)
    (parse : String → Except String Cnpj.CNPJData) :
    ((Cnpj.stripNonDigits s).length = 14 →
      Cnpj.formatCNPJ s = Except.ok (Cnpj.cnpjMask (Cnpj.stripNonDigits s)) ∧
      Cnpj.GetCNPJ fetch parse s =
        Cnpj.handleResponse
          (fetch (Cnpj.getCNPJURL (Cnpj.cnpjMask (Cnpj.stripNonDigits s))))
          (Cnpj.cnpjMask (Cnpj.stripNonDigits s)) parse) ∧
    ((Cnpj.stripNonDigits s).length ≠ 14 →
      Cnpj.GetCNPJ fetch parse s =
        Except.error ("invalid CNPJ: must have 14 digits, got " ++
          toString (Cnpj.stripNonDigits s).length)) ∧
    Cnpj.formatCNPJ "12345678000190" = Except.ok "12.345.678/0001-90" ∧
    Cnpj.GetCNPJ fetch parse "1234" =
      Except.error "invalid CNPJ: must have 14 digits, got 4" := by
  refine ⟨?_, ?_, by rfl, by rfl⟩
  · intro h
    refine ⟨?_, ?_⟩
    · simp [Cnpj.formatCNPJ, h]
    · simp [Cnpj.GetCNPJ, Cnpj.formatCNPJ, h]
  · intro h
    simp [Cnpj.GetCNPJ, Cnpj.formatCNPJ, h]

/-- Witness for C3 at `"12345678000190"` (14 digits) and `"1234"` (4 digits). -/
theorem c3_cnpj_normalization_witness :
    Cnpj.formatCNPJ "12345678000190" = Except.ok "12.345.678/0001-90" ∧
    Cnpj.GetCNPJ (fun _ => ⟨200, ""⟩) (fun _ => Except.ok default) "1234" =
      Except.error "invalid CNPJ: must have 14 digits, got 4" := by
  have h14 := c3_cnpj_normalization "12345678000190" (fun _ => ⟨200, ""⟩)
    (fun _ => Except.ok default)
  have h4 := c3_cnpj_normalization "1234" (fun _ => ⟨200, ""⟩)
    (fun _ => Except.ok default)
  exact ⟨(h14.1 (by rfl)).1, (h4.2).1 (by decide)⟩

/-- C10: company-identifier normalization accepts its own output: for every
input with exactly 14 digits after stripping, `formatCNPJ` succeeds with the
masked form, and `formatCNPJ` applied to that masked form (which contains
punctuation) succeeds and returns the identical string. -/
theorem c10_formatCNPJ_idempotent (s : String)
    (h14 : (Cnpj.stripNonDigits s).length = 14) :
    Cnpj.formatCNPJ s = Except.ok (Cnpj.cnpjMask (Cnpj.stripNonDigits s)) ∧
    Cnpj.formatCNPJ (Cnpj.cnpjMask (Cnpj.stripNonDigits s)) =
      Except.ok (Cnpj.cnpjMask (Cnpj.stripNonDigits s)) := by
  have hstrip : Cnpj.stripNonDigits (Cnpj.cnpjMask (Cnpj.stripNonDigits s)) =
      Cnpj.stripNonDigits s := by
    rw [strip_cnpjMask _ (fun c hc => mem_stripNonDigits s hc)]
    exact pieces_assemble _ h14
  refine ⟨by simp [Cnpj.formatCNPJ, h14], ?_⟩
  simp only [Cnpj.formatCNPJ, hstrip]
  simp [h14]

/-- Witness for C10 at `"12345678000190"`: formatting is idempotent and the
punctuated form re-normalizes to itself. -/
theorem c10_formatCNPJ_idempotent_witness :
    Cnpj.formatCNPJ "12345678000190" = Except.ok "12.345.678/0001-90" ∧
    Cnpj.formatCNPJ "12.345.678/0001-90" = Except.ok "12.345.678/0001-90" := by
  have h := c10_formatCNPJ_idempotent "12345678000190" (by rfl)
  exact ⟨h.1, h.2⟩

/-- C6: in the company-lookup adapter an upstream 404 yields the distinct
"not found" failure naming the formatted CNPJ, whose message does not take
the generic API-error form, while every other non-success status yields the
generic failure carrying status code and body. -/
theorem c6_cnpj_notfound_distinct (c f body : String) (s : Int)
    (parse : String → Except String Cnpj.CNPJData)
    (hf : Cnpj.formatCNPJ c = Except.ok f) :
    Cnpj.GetCNPJ (fun _ => ⟨404, body⟩) parse c =
      Except.error ("CNPJ not found: " ++ f) ∧
    charsPrefixOf "API error (status ".toList ("CNPJ not found: " ++ f).toList = false ∧
    (s ≠ 200 → s ≠ 404 →
      Cnpj.GetCNPJ (fun _ => ⟨s, body⟩) parse c =
        Except.error ("API error (status " ++ toString s ++ "): " ++ body)) := by
  refine ⟨?_, ?_, ?_⟩
  · simp [Cnpj.GetCNPJ, hf, Cnpj.handleResponse]
  · rfl
  · intro h200 h404
    simp [Cnpj.GetCNPJ, hf, Cnpj.handleResponse, h200, h404]

/-- Witness for C6 at a valid CNPJ with upstream 404 and upstream 503. -/
theorem c6_cnpj_notfound_distinct_witness :
    Cnpj.GetCNPJ (fun _ => ⟨404, "gone"⟩) (fun _ => Except.ok default) "12345678000190" =
      Except.error "CNPJ not found: 12.345.678/0001-90" ∧
    Cnpj.GetCNPJ (fun _ => ⟨503, "gone"⟩) (fun _ => Except.ok default) "12345678000190" =
      Except.error "API error (status 503): gone" := by
  have h := c6_cnpj_notfound_distinct "12345678000190" "12.345.678/0001-90" "gone" 503
    (fun _ => Except.ok default) (by rfl)
  exact ⟨h.1, h.2.2 (by decide) (by decide)⟩

/-- C5 counterexample: for the company-lookup operation, upstream status 404
with body "maintenance" yields a failure whose message contains neither the
status code "404" nor the body "maintenance" — refuting the claim that every
adapter operation's non-2xx failure carries both verbatim. -/
theorem c5_status_error_counterexample :
    Cnpj.GetCNPJ (fun _ => ⟨404, "maintenance"⟩) (fun _ => Except.ok default)
      "12345678000190" = Except.error "CNPJ not found: 12.345.678/0001-90" ∧
    strContains "CNPJ not found: 12.345.678/0001-90" "404" = false ∧
    strContains "CNPJ not found: 12.345.678/0001-90" "maintenance" = false :=
  ⟨rfl, rfl, rfl⟩

/-- C5 (amended): every adapter operation turns a response whose status is
not 200 into a failure whose message is exactly
`API error (status <code>): <body>` — except the company-lookup operation,
which on status 404 yields its distinct `CNPJ not found: <formatted>` failure
instead (all other statuses there also yield the generic form). -/
theorem c5_status_error_amended (s code : Int)
    (body sd ed st oc nm uf cn cpf mes lm today cur dt loc ind c f : String)
    (mc pg ps n : Int)
    (p1 : String → Except String Pncp.ContractsPayload)
    (p2 : String → Except String (List Pncp.PriceRegistration))
    (p3 : String → Except String (List Transparencia.Contract))
    (p4 : String → Except String (List Transparencia.Servidor))
    (p5 : String → Except String (List Transparencia.Remuneracao))
    (p6 : String → Except String (List Transparencia.Convenio))
    (p7 : String → Except String (List Transparencia.CEIS))
    (p8 : String → Except String (List Bcb.DataPoint))
    (p9 : String → Except String (List Bcb.ExchangeRate))
    (p10 : String → Except String (List (String × Jval)))
    (p11 : String → Except String (List Ibge.State))
    (p12 : String → Except String (List Ibge.Municipality))
    (p13 : String → Except String (List (List (String × Jval))))
    (p14 : String → Except String Cnpj.CNPJData)
    (hs : s ≠ 200) (hnm : nm ≠ "") (hcpf : cpf ≠ "")
    (hind : Bcb.seriesCodeOf ind = some code)
    (hf : Cnpj.formatCNPJ c = Except.ok f) :
    Pncp.SearchContracts (fun _ => ⟨s, body⟩) p1 sd ed mc st pg ps =
      Except.error ("API error (status " ++ toString s ++ "): " ++ body) ∧
    Pncp.SearchPriceRegistrations (fun _ => ⟨s, body⟩) p2 st pg ps =
      Except.error ("API error (status " ++ toString s ++ "): " ++ body) ∧
    Transparencia.SearchContracts (fun _ => ⟨s, body⟩) p3 oc pg ps =
      Except.error ("API error (status " ++ toString s ++ "): " ++ body) ∧
    Transparencia.SearchServidores (fun _ => ⟨s, body⟩) p4 nm pg ps =
      Except.error ("API error (status " ++ toString s ++ "): " ++ body) ∧
    Transparencia.GetServidorRemuneracao (fun _ => ⟨s, body⟩) p5 lm cpf mes =
      Except.error ("API error (status " ++ toString s ++ "): " ++ body) ∧
    Transparencia.SearchConvenios (fun _ => ⟨s, body⟩) p6 uf pg ps =
      Except.error ("API error (status " ++ toString s ++ "): " ++ body) ∧
    Transparencia.SearchCEIS (fun _ => ⟨s, body⟩) p7 cn pg ps =
      Except.error ("API error (status " ++ toString s ++ "): " ++ body) ∧
    Bcb.GetIndicator (fun _ => ⟨s, body⟩) p8 ind n =
      Except.error ("API error (status " ++ toString s ++ "): " ++ body) ∧
    Bcb.GetExchangeRate (fun _ => ⟨s, body⟩) p9 today cur dt =
      Except.error ("API error (status " ++ toString s ++ "): " ++ body) ∧
    Bcb.GetPIXStats (fun _ => ⟨s, body⟩) p10 =
      Except.error ("API error (status " ++ toString s ++ "): " ++ body) ∧
    Ibge.GetStates (fun _ => ⟨s, body⟩) p11 =
      Except.error ("API error (status " ++ toString s ++ "): " ++ body) ∧
    Ibge.GetMunicipalities (fun _ => ⟨s, body⟩) p12 loc =
      Except.error ("API error (status " ++ toString s ++ "): " ++ body) ∧
    Ibge.GetPopulation (fun _ => ⟨s, body⟩) p13 loc =
      some (Except.error ("API error (status " ++ toString s ++ "): " ++ body)) ∧
    Cnpj.GetCNPJ (fun _ => ⟨s, body⟩) p14 c =
      Except.error (if s = 404 then "CNPJ not found: " ++ f
        else "API error (status " ++ toString s ++ "): " ++ body) := by
  refine ⟨?_, ?_, ?_, ?_, ?_, ?_, ?_, ?_, ?_, ?_, ?_, ?_, ?_, ?_⟩
  · simp [Pncp.SearchContracts, Pncp.doRequest, hs]
  · simp [Pncp.SearchPriceRegistrations, Pncp.doRequest, hs]
  · simp [Transparencia.SearchContracts, Transparencia.doRequest, hs]
  · simp [Transparencia.SearchServidores, Transparencia.doRequest, hs, hnm]
  · simp [Transparencia.GetServidorRemuneracao, Transparencia.doRequest, hs, hcpf]
  · simp [Transparencia.SearchConvenios, Transparencia.doRequest, hs]
  · simp [Transparencia.SearchCEIS, Transparencia.doRequest, hs]
  · simp [Bcb.GetIndicator, Bcb.doRequest, hs, hind]
  · simp [Bcb.GetExchangeRate, Bcb.doRequest, hs]
  · simp [Bcb.GetPIXStats, Bcb.doRequest, hs]
  · simp [Ibge.GetStates, Ibge.doRequest, hs]
  · simp [Ibge.GetMunicipalities, Ibge.doRequest, hs]
  · simp [Ibge.GetPopulation, Ibge.doRequest, hs]
  · by_cases h404 : s = 404 <;>
      simp [Cnpj.GetCNPJ, hf, Cnpj.handleResponse, hs, h404]

/-- Witness for the amended C5 at status 503 with body "maintenance". -/
theorem c5_status_error_amended_witness :
    Pncp.SearchContracts (fun _ => ⟨503, "maintenance"⟩) (fun _ => Except.ok default)
      "2024-01-01" "2024-01-31" 0 "" 1 50 =
      Except.error "API error (status 503): maintenance" ∧
    Bcb.GetIndicator (fun _ => ⟨503, "maintenance"⟩) (fun _ => Except.ok default)
      "selic" 5 = Except.error "API error (status 503): maintenance" ∧
    Cnpj.GetCNPJ (fun _ => ⟨503, "maintenance"⟩) (fun _ => Except.ok default)
      "12345678000190" = Except.error "API error (status 503): maintenance" := by
  obtain ⟨h1, _, _, _, _, _, _, h8, _, _, _, _, _, h14⟩ :=
    c5_status_error_amended 503 11 "maintenance" "2024-01-01" "2024-01-31" "" "" "x"
      "" "" "1" "" "" "" "" "" "" "selic" "12345678000190" "12.345.678/0001-90"
      0 1 50 5
      (fun _ => Except.ok default) (fun _ => Except.ok default)
      (fun _ => Except.ok default) (fun _ => Except.ok default)
      (fun _ => Except.ok default) (fun _ => Except.ok default)
      (fun _ => Except.ok default) (fun _ => Except.ok default)
      (fun _ => Except.ok default) (fun _ => Except.ok default)
      (fun _ => Except.ok default) (fun _ => Except.ok default)
      (fun _ => Except.ok default) (fun _ => Except.ok default)
      (by decide) (by decide) (by decide) (by rfl) (by rfl)
  exact ⟨h1, h8, h14⟩

/-- C4: the indicator table maps exactly selic ↦ 11, selic_monthly ↦ 4390,
ipca ↦ 433, igpm ↦ 189 and cdi ↦ 12, and for every name outside the table
`GetIndicator` fails — for any transport, hence before any request — with a
validation error listing the valid names. -/
theorem c4_indicator_table :
    (∀ (name : String) (code : Int), Bcb.seriesCodeOf name = some code ↔
      ((name = "selic" ∧ code = 11) ∨ (name = "selic_monthly" ∧ code = 4390) ∨
       (name = "ipca" ∧ code = 433) ∨ (name = "igpm" ∧ code = 189) ∨
       (name = "cdi" ∧ code = 12))) ∧
    (∀ (indicator : String) (lastN : Int) (fetch : Fetch)
       (parse : String → Except String (List Bcb.DataPoint)),
      Bcb.seriesCodeOf indicator = none →
      Bcb.GetIndicator fetch parse indicator lastN =
        Except.error ("unknown indicator: " ++ indicator ++
          ". Available: selic, selic_monthly, ipca, igpm, cdi")) := by
  constructor
  · intro name code
    constructor
    · intro h
      unfold Bcb.seriesCodeOf at h
      cases hfind : Bcb.SeriesCodes.find? (fun p => p.1 == name) with
      | none => rw [hfind] at h; simp at h
      | some p0 =>
          rw [hfind] at h
          simp only [Option.map_some'] at h
          have hp := List.find?_some hfind
          have hname : p0.1 = name := by simpa using hp
          have hmem : p0 ∈ Bcb.SeriesCodes := List.mem_of_find?_eq_some hfind
          unfold Bcb.SeriesCodes at hmem
          fin_cases hmem <;> simp_all
    · rintro (⟨h1, h2⟩ | ⟨h1, h2⟩ | ⟨h1, h2⟩ | ⟨h1, h2⟩ | ⟨h1, h2⟩) <;>
        subst h1 <;> subst h2 <;> rfl
  · intro indicator lastN fetch parse hnone
    simp [Bcb.GetIndicator, hnone]

/-- Witness for C4 at the out-of-table name "dollar" (and the in-table name
"selic"). -/
theorem c4_indicator_table_witness :
    Bcb.seriesCodeOf "selic" = some 11 ∧
    Bcb.GetIndicator (fun _ => ⟨200, ""⟩) (fun _ => Except.ok []) "dollar" 5 =
      Except.error "unknown indicator: dollar. Available: selic, selic_monthly, ipca, igpm, cdi" := by
  refine ⟨(c4_indicator_table.1 "selic" 11).mpr (Or.inl ⟨rfl, rfl⟩), ?_⟩
  exact c4_indicator_table.2 "dollar" 5 (fun _ => ⟨200, ""⟩) (fun _ => Except.ok [])
    (by rfl)

/-- C1 counterexample: in the Transparencia adapter an out-of-range page size
is replaced by the default 100, not clamped to the range boundary: input 501
(above the maximum 500) yields effective page size 100, not 500, and input 0
(below the minimum) yields 100, not the minimum — refuting the claim as
stated for the Transparencia operations. -/
theorem c1_page_size_counterexample :
    (Transparencia.searchCEISRequest "" 1 501).pageSize = 100 ∧ (100 : Int) ≠ 500 ∧
    (Transparencia.searchContractsRequest "" 1 0).pageSize = 100 ∧ (100 : Int) ≠ 1 ∧
    (Transparencia.SearchCEIS (fun _ => ⟨200, ""⟩) (fun _ => Except.ok []) "" 1 501).map
      (fun env => env.pageSize) = Except.ok 100 :=
  ⟨rfl, by decide, rfl, by decide, rfl⟩

/-- C1 (amended): the PNCP searches clamp the page size into [10, 500]
(below-minimum inputs become 10, above-maximum inputs become 500, in-range
inputs pass through), while the Transparencia searches replace any
out-of-range input (< 1 or > 500) by the default 100 and pass in-range inputs
through; the effective value is the one placed in the `tamanhoPagina`
request parameter, and it is echoed in the response envelope of every search
whose envelope has a page-size field (the PNCP price-registration envelope
has none). -/
theorem c1_page_size_amended (sd ed st oc nm uf cn : String) (mc pg ps : Int)
    (pl : Pncp.ContractsPayload)
    (cs : List Transparencia.Contract) (svs : List Transparencia.Servidor)
    (cvs : List Transparencia.Convenio) (ces : List Transparencia.CEIS)
    (hnm : nm ≠ "") :
    (Pncp.searchContractsRequest sd ed mc st pg ps).pageSize = max 10 (min 500 ps) ∧
    (Pncp.searchPriceRegistrationsRequest st pg ps).pageSize = max 10 (min 500 ps) ∧
    (Transparencia.searchContractsRequest oc pg ps).pageSize =
      (if 1 ≤ ps ∧ ps ≤ 500 then ps else 100) ∧
    (Transparencia.searchServidoresRequest nm pg ps).pageSize =
      (if 1 ≤ ps ∧ ps ≤ 500 then ps else 100) ∧
    (Transparencia.searchConveniosRequest uf pg ps).pageSize =
      (if 1 ≤ ps ∧ ps ≤ 500 then ps else 100) ∧
    (Transparencia.searchCEISRequest cn pg ps).pageSize =
      (if 1 ≤ ps ∧ ps ≤ 500 then ps else 100) ∧
    ("tamanhoPagina", toString (Pncp.searchContractsRequest sd ed mc st pg ps).pageSize) ∈
      (Pncp.searchContractsRequest sd ed mc st pg ps).params ∧
    ("tamanhoPagina", toString (Pncp.searchPriceRegistrationsRequest st pg ps).pageSize) ∈
      (Pncp.searchPriceRegistrationsRequest st pg ps).params ∧
    ("tamanhoPagina", toString (Transparencia.searchContractsRequest oc pg ps).pageSize) ∈
      (Transparencia.searchContractsRequest oc pg ps).params ∧
    ("tamanhoPagina", toString (Transparencia.searchServidoresRequest nm pg ps).pageSize) ∈
      (Transparencia.searchServidoresRequest nm pg ps).params ∧
    ("tamanhoPagina", toString (Transparencia.searchConveniosRequest uf pg ps).pageSize) ∈
      (Transparencia.searchConveniosRequest uf pg ps).params ∧
    ("tamanhoPagina", toString (Transparencia.searchCEISRequest cn pg ps).pageSize) ∈
      (Transparencia.searchCEISRequest cn pg ps).params ∧
    (Pncp.SearchContracts (fun _ => ⟨200, ""⟩) (fun _ => Except.ok pl)
        sd ed mc st pg ps).map (fun env => env.pageSize) =
      Except.ok (Pncp.searchContractsRequest sd ed mc st pg ps).pageSize ∧
    (Transparencia.SearchContracts (fun _ => ⟨200, ""⟩) (fun _ => Except.ok cs)
        oc pg ps).map (fun env => env.pageSize) =
      Except.ok (Transparencia.searchContractsRequest oc pg ps).pageSize ∧
    (Transparencia.SearchServidores (fun _ => ⟨200, ""⟩) (fun _ => Except.ok svs)
        nm pg ps).map (fun env => env.pageSize) =
      Except.ok (Transparencia.searchServidoresRequest nm pg ps).pageSize ∧
    (Transparencia.SearchConvenios (fun _ => ⟨200, ""⟩) (fun _ => Except.ok cvs)
        uf pg ps).map (fun env => env.pageSize) =
      Except.ok (Transparencia.searchConveniosRequest uf pg ps).pageSize ∧
    (Transparencia.SearchCEIS (fun _ => ⟨200, ""⟩) (fun _ => Except.ok ces)
        cn pg ps).map (fun env => env.pageSize) =
      Except.ok (Transparencia.searchCEISRequest cn pg ps).pageSize := by
  refine ⟨?_, ?_, ?_, ?_, ?_, ?_, ?_, ?_, ?_, ?_, ?_, ?_, ?_, ?_, ?_, ?_, ?_⟩
  · simp only [Pncp.searchContractsRequest, max_def, min_def]
    split_ifs <;> omega
  · simp only [Pncp.searchPriceRegistrationsRequest, max_def, min_def]
    split_ifs <;> omega
  · simp only [Transparencia.searchContractsRequest]
    split_ifs <;> (simp_all; try omega)
  · simp only [Transparencia.searchServidoresRequest]
    split_ifs <;> (simp_all; try omega)
  · simp only [Transparencia.searchConveniosRequest]
    split_ifs <;> (simp_all; try omega)
  · simp only [Transparencia.searchCEISRequest]
    split_ifs <;> (simp_all; try omega)
  · simp [Pncp.searchContractsRequest]
  · simp [Pncp.searchPriceRegistrationsRequest]
  · simp [Transparencia.searchContractsRequest]
  · simp [Transparencia.searchServidoresRequest]
  · simp [Transparencia.searchConveniosRequest]
  · simp [Transparencia.searchCEISRequest]
  · rfl
  · rfl
  · simp [Transparencia.SearchServidores, Transparencia.doRequest, hnm, Except.map]
  · rfl
  · rfl

/-- Witness for the amended C1: PNCP clamps 501 to 500 and 5 to 10; the
Transparencia default replaces 501 by 100; an in-range 250 passes through and
is echoed. -/
theorem c1_page_size_amended_witness :
    (Pncp.searchContractsRequest "" "" 0 "" 1 501).pageSize = 500 ∧
    (Pncp.searchContractsRequest "" "" 0 "" 1 5).pageSize = 10 ∧
    (Transparencia.searchCEISRequest "" 1 501).pageSize = 100 ∧
    (Transparencia.SearchServidores (fun _ => ⟨200, ""⟩) (fun _ => Except.ok [])
        "maria" 1 250).map (fun env => env.pageSize) = Except.ok 250 := by
  obtain ⟨a1, _, _, _, _, a6, _⟩ :=
    c1_page_size_amended "" "" "" "" "maria" "" "" 0 1 501 default [] [] [] []
      (by decide)
  obtain ⟨b1, _⟩ :=
    c1_page_size_amended "" "" "" "" "maria" "" "" 0 1 5 default [] [] [] []
      (by decide)
  obtain ⟨_, _, _, _, _, _, _, _, _, _, _, _, _, _, d15, _⟩ :=
    c1_page_size_amended "" "" "" "" "maria" "" "" 0 1 250 default [] [] [] []
      (by decide)
  exact ⟨by simpa using a1, by simpa using b1, by simpa using a6, by simpa using d15⟩

/-- C7 counterexample: the PNCP contract search sets its date parameters
unconditionally, so an empty start date is sent blank — the parameter list
contains the pair ("dataInicial", "") and the encoded query string contains
"dataInicial=&" — refuting the claim that the URL contains exactly the
non-empty parameters. -/
theorem c7_params_counterexample :
    ("dataInicial", "") ∈ (Pncp.searchContractsRequest "" "2024-12-31" 0 "" 1 100).params ∧
    strContains (encodeParams (Pncp.searchContractsRequest "" "2024-12-31" 0 "" 1 100).params)
      "dataInicial=&" = true :=
  ⟨by decide, rfl⟩

/-- C7 (amended): each search's parameter list contains exactly the
operation's fixed parameters — always present, with their defaulted/clamped
values, even when a supplied required text parameter such as a PNCP date is
empty (it is then sent blank) — plus the optional parameter (`uf` for the
PNCP searches, `cnpj` for the CEIS search) exactly when it is non-empty. -/
theorem c7_params_amended (sd ed st oc nm uf cn k v : String) (mc pg ps : Int) :
    ((k, v) ∈ (Pncp.searchContractsRequest sd ed mc st pg ps).params ↔
      ((k = "dataInicial" ∧ v = sd) ∨ (k = "dataFinal" ∧ v = ed) ∨
       (k = "codigoModalidadeContratacao" ∧
         v = toString (Pncp.searchContractsRequest sd ed mc st pg ps).modalityCode) ∨
       (k = "tamanhoPagina" ∧
         v = toString (Pncp.searchContractsRequest sd ed mc st pg ps).pageSize) ∨
       (k = "pagina" ∧ v = toString (Pncp.searchContractsRequest sd ed mc st pg ps).page) ∨
       (st ≠ "" ∧ k = "uf" ∧ v = st))) ∧
    ((k, v) ∈ (Pncp.searchPriceRegistrationsRequest st pg ps).params ↔
      ((k = "tamanhoPagina" ∧
         v = toString (Pncp.searchPriceRegistrationsRequest st pg ps).pageSize) ∨
       (k = "pagina" ∧ v = toString (Pncp.searchPriceRegistrationsRequest st pg ps).page) ∨
       (st ≠ "" ∧ k = "uf" ∧ v = st))) ∧
    ((k, v) ∈ (Transparencia.searchContractsRequest oc pg ps).params ↔
      ((k = "codigoOrgao" ∧ v = (Transparencia.searchContractsRequest oc pg ps).primary) ∨
       (k = "pagina" ∧ v = toString (Transparencia.searchContractsRequest oc pg ps).page) ∨
       (k = "tamanhoPagina" ∧
         v = toString (Transparencia.searchContractsRequest oc pg ps).pageSize))) ∧
    ((k, v) ∈ (Transparencia.searchServidoresRequest nm pg ps).params ↔
      ((k = "nome" ∧ v = nm) ∨
       (k = "pagina" ∧ v = toString (Transparencia.searchServidoresRequest nm pg ps).page) ∨
       (k = "tamanhoPagina" ∧
         v = toString (Transparencia.searchServidoresRequest nm pg ps).pageSize))) ∧
    ((k, v) ∈ (Transparencia.searchConveniosRequest uf pg ps).params ↔
      ((k = "uf" ∧ v = (Transparencia.searchConveniosRequest uf pg ps).primary) ∨
       (k = "pagina" ∧ v = toString (Transparencia.searchConveniosRequest uf pg ps).page) ∨
       (k = "tamanhoPagina" ∧
         v = toString (Transparencia.searchConveniosRequest uf pg ps).pageSize))) ∧
    ((k, v) ∈ (Transparencia.searchCEISRequest cn pg ps).params ↔
      ((cn ≠ "" ∧ k = "cnpj" ∧ v = cn) ∨
       (k = "pagina" ∧ v = toString (Transparencia.searchCEISRequest cn pg ps).page) ∨
       (k = "tamanhoPagina" ∧
         v = toString (Transparencia.searchCEISRequest cn pg ps).pageSize))) := by
  refine ⟨?_, ?_, ?_, ?_, ?_, ?_⟩
  · by_cases hst : st = "" <;>
      simp [Pncp.searchContractsRequest, hst, or_assoc, and_assoc]
  · by_cases hst : st = "" <;>
      simp [Pncp.searchPriceRegistrationsRequest, hst, or_assoc, and_assoc]
  · simp [Transparencia.searchContractsRequest, or_assoc, and_assoc]
  · simp [Transparencia.searchServidoresRequest, or_assoc, and_assoc]
  · simp [Transparencia.searchConveniosRequest, or_assoc, and_assoc]
  · by_cases hcn : cn = "" <;>
      simp [Transparencia.searchCEISRequest, hcn, or_assoc, and_assoc]

/-- C8: every successful list-valued call reports the decoded list's length
as the envelope's total, except PNCP `SearchContracts`, whose total is the
upstream `totalRegistros` field (independent of the decoded list, so the two
may differ). -/
theorem c8_total_semantics (sd ed st oc nm uf cn ind loc : String)
    (mc pg ps n code : Int)
    (pl : Pncp.ContractsPayload) (regs : List Pncp.PriceRegistration)
    (cs : List Transparencia.Contract) (svs : List Transparencia.Servidor)
    (cvs : List Transparencia.Convenio) (ces : List Transparencia.CEIS)
    (dps : List Bcb.DataPoint) (sts : List Ibge.State) (ms : List Ibge.Municipality)
    (hnm : nm ≠ "") (hind : Bcb.seriesCodeOf ind = some code) :
    (Pncp.SearchContracts (fun _ => ⟨200, ""⟩) (fun _ => Except.ok pl)
        sd ed mc st pg ps).map (fun env => env.total) = Except.ok pl.totalRegistros ∧
    (Pncp.SearchContracts (fun _ => ⟨200, ""⟩) (fun _ => Except.ok pl)
        sd ed mc st pg ps).map (fun env => env.contracts) = Except.ok pl.data ∧
    (Pncp.SearchPriceRegistrations (fun _ => ⟨200, ""⟩) (fun _ => Except.ok regs)
        st pg ps).map (fun env => env.total) = Except.ok (regs.length : Int) ∧
    (Transparencia.SearchContracts (fun _ => ⟨200, ""⟩) (fun _ => Except.ok cs)
        oc pg ps).map (fun env => env.total) = Except.ok (cs.length : Int) ∧
    (Transparencia.SearchServidores (fun _ => ⟨200, ""⟩) (fun _ => Except.ok svs)
        nm pg ps).map (fun env => env.total) = Except.ok (svs.length : Int) ∧
    (Transparencia.SearchConvenios (fun _ => ⟨200, ""⟩) (fun _ => Except.ok cvs)
        uf pg ps).map (fun env => env.total) = Except.ok (cvs.length : Int) ∧
    (Transparencia.SearchCEIS (fun _ => ⟨200, ""⟩) (fun _ => Except.ok ces)
        cn pg ps).map (fun env => env.total) = Except.ok (ces.length : Int) ∧
    (Bcb.GetIndicator (fun _ => ⟨200, ""⟩) (fun _ => Except.ok dps)
        ind n).map (fun env => env.total) = Except.ok (dps.length : Int) ∧
    (Ibge.GetStates (fun _ => ⟨200, ""⟩) (fun _ => Except.ok sts)).map
        (fun env => env.total) = Except.ok (sts.length : Int) ∧
    (Ibge.GetMunicipalities (fun _ => ⟨200, ""⟩) (fun _ => Except.ok ms) loc).map
        (fun env => env.total) = Except.ok (ms.length : Int) := by
  refine ⟨rfl, rfl, rfl, rfl, ?_, rfl, rfl, ?_, rfl, rfl⟩
  · simp [Transparencia.SearchServidores, Transparencia.doRequest, hnm, Except.map]
  · simp [Bcb.GetIndicator, Bcb.doRequest, hind, Except.map]

/-- Witness for C8: an upstream page with an empty list but totalRegistros
999 yields total 999 for PNCP SearchContracts (differing from the list
length), while the length-based operations report 0 for an empty list. -/
theorem c8_total_semantics_witness :
    (Pncp.SearchContracts (fun _ => ⟨200, ""⟩)
        (fun _ => Except.ok { data := [], totalRegistros := 999 })
        "" "" 0 "" 1 50).map (fun env => env.total) = Except.ok 999 ∧
    (Transparencia.SearchServidores (fun _ => ⟨200, ""⟩) (fun _ => Except.ok [])
        "maria" 1 50).map (fun env => env.total) = Except.ok 0 ∧
    (Bcb.GetIndicator (fun _ => ⟨200, ""⟩) (fun _ => Except.ok [])
        "selic" 5).map (fun env => env.total) = Except.ok 0 := by
  obtain ⟨h1, _, _, _, h5, _, _, h8, _⟩ :=
    c8_total_semantics "" "" "" "" "maria" "" "" "selic" "" 0 1 50 5 11
      { data := [], totalRegistros := 999 } [] [] [] [] [] [] [] []
      (by decide) (by rfl)
  exact ⟨h1, h5, h8⟩

/-- C9: every successful response envelope carries its adapter's fixed
source tag: "pncp_api", "portal_transparencia_api", "ibge_api", "bcb_api",
"minhareceita_api". -/
theorem c9_source_tags (sd ed st oc nm uf cn ind loc c mes lm today cur dt cpf f : String)
    (mc pg ps n code : Int)
    (pl : Pncp.ContractsPayload) (regs : List Pncp.PriceRegistration)
    (cs : List Transparencia.Contract) (svs : List Transparencia.Servidor)
    (rems : List Transparencia.Remuneracao)
    (cvs : List Transparencia.Convenio) (ces : List Transparencia.CEIS)
    (dps : List Bcb.DataPoint) (ers : List Bcb.ExchangeRate)
    (pix : List (String × Jval))
    (sts : List Ibge.State) (ms : List Ibge.Municipality)
    (pls : List (List (String × Jval))) (pd : List Ibge.PopulationData)
    (d : Cnpj.CNPJData)
    (hnm : nm ≠ "") (hcpf : cpf ≠ "") (hind : Bcb.seriesCodeOf ind = some code)
    (hex : Ibge.extractPopulation pls = some pd)
    (hf : Cnpj.formatCNPJ c = Except.ok f) :
    (Pncp.SearchContracts (fun _ => ⟨200, ""⟩) (fun _ => Except.ok pl)
        sd ed mc st pg ps).map (fun env => env.source) = Except.ok "pncp_api" ∧
    (Pncp.SearchPriceRegistrations (fun _ => ⟨200, ""⟩) (fun _ => Except.ok regs)
        st pg ps).map (fun env => env.source) = Except.ok "pncp_api" ∧
    (Transparencia.SearchContracts (fun _ => ⟨200, ""⟩) (fun _ => Except.ok cs)
        oc pg ps).map (fun env => env.source) = Except.ok "portal_transparencia_api" ∧
    (Transparencia.SearchServidores (fun _ => ⟨200, ""⟩) (fun _ => Except.ok svs)
        nm pg ps).map (fun env => env.source) = Except.ok "portal_transparencia_api" ∧
    (Transparencia.GetServidorRemuneracao (fun _ => ⟨200, ""⟩) (fun _ => Except.ok rems)
        lm cpf mes).map (fun env => env.source) = Except.ok "portal_transparencia_api" ∧
    (Transparencia.SearchConvenios (fun _ => ⟨200, ""⟩) (fun _ => Except.ok cvs)
        uf pg ps).map (fun env => env.source) = Except.ok "portal_transparencia_api" ∧
    (Transparencia.SearchCEIS (fun _ => ⟨200, ""⟩) (fun _ => Except.ok ces)
        cn pg ps).map (fun env => env.source) = Except.ok "portal_transparencia_api" ∧
    (Ibge.GetStates (fun _ => ⟨200, ""⟩) (fun _ => Except.ok sts)).map
        (fun env => env.source) = Except.ok "ibge_api" ∧
    (Ibge.GetMunicipalities (fun _ => ⟨200, ""⟩) (fun _ => Except.ok ms) loc).map
        (fun env => env.source) = Except.ok "ibge_api" ∧
    Ibge.GetPopulation (fun _ => ⟨200, ""⟩) (fun _ => Except.ok pls) loc =
      some (Except.ok { data := pd, source := "ibge_api" }) ∧
    (Bcb.GetIndicator (fun _ => ⟨200, ""⟩) (fun _ => Except.ok dps)
        ind n).map (fun env => env.source) = Except.ok "bcb_api" ∧
    (Bcb.GetSELIC (fun _ => ⟨200, ""⟩) (fun _ => Except.ok dps) n).map
        (fun env => env.source) = Except.ok "bcb_api" ∧
    (Bcb.GetIPCA (fun _ => ⟨200, ""⟩) (fun _ => Except.ok dps) n).map
        (fun env => env.source) = Except.ok "bcb_api" ∧
    (Bcb.GetExchangeRate (fun _ => ⟨200, ""⟩) (fun _ => Except.ok ers)
        today cur dt).map (fun env => env.source) = Except.ok "bcb_api" ∧
    (Bcb.GetPIXStats (fun _ => ⟨200, ""⟩) (fun _ => Except.ok pix)).map
        (fun env => env.source) = Except.ok "bcb_api" ∧
    (Cnpj.GetCNPJ (fun _ => ⟨200, ""⟩) (fun _ => Except.ok d) c).map
        (fun env => env.source) = Except.ok "minhareceita_api" := by
  refine ⟨rfl, rfl, rfl, ?_, ?_, rfl, rfl, rfl, rfl, ?_, ?_, rfl, rfl, rfl, rfl, ?_⟩
  · simp [Transparencia.SearchServidores, Transparencia.doRequest, hnm, Except.map]
  · simp [Transparencia.GetServidorRemuneracao, Transparencia.doRequest, hcpf, Except.map]
  · simp [Ibge.GetPopulation, Ibge.doRequest, hex]
  · simp [Bcb.GetIndicator, Bcb.doRequest, hind, Except.map]
  · simp [Cnpj.GetCNPJ, hf, Cnpj.handleResponse, Except.map]

/-- Witness for C9 at concrete inputs for one operation of each adapter. -/
theorem c9_source_tags_witness :
    (Pncp.SearchContracts (fun _ => ⟨200, ""⟩) (fun _ => Except.ok default)
        "" "" 0 "" 1 50).map (fun env => env.source) = Except.ok "pncp_api" ∧
    (Transparencia.SearchServidores (fun _ => ⟨200, ""⟩) (fun _ => Except.ok [])
        "maria" 1 50).map (fun env => env.source) = Except.ok "portal_transparencia_api" ∧
    Ibge.GetPopulation (fun _ => ⟨200, ""⟩) (fun _ => Except.ok []) "" =
      some (Except.ok { data := [], source := "ibge_api" }) ∧
    (Bcb.GetIndicator (fun _ => ⟨200, ""⟩) (fun _ => Except.ok [])
        "selic" 5).map (fun env => env.source) = Except.ok "bcb_api" ∧
    (Cnpj.GetCNPJ (fun _ => ⟨200, ""⟩) (fun _ => Except.ok default)
        "12345678000190").map (fun env => env.source) = Except.ok "minhareceita_api" := by
  obtain ⟨h1, _, _, h4, _, _, _, _, _, h10, h11, _, _, _, _, h16⟩ :=
    c9_source_tags "" "" "" "" "maria" "" "" "selic" "" "12345678000190" "" "" "" "" ""
      "1" "12.345.678/0001-90" 0 1 50 5 11
      default [] [] [] [] [] [] [] [] [] [] [] [] [] default
      (by decide) (by decide) (by rfl) (by rfl) (by rfl)
  exact ⟨h1, h4, h10, h11, h16⟩

/-- C2 (code bug): the population extraction is lenient only at the levels
guarded by checked `, ok` assertions (missing `resultados`, missing or
wrongly-typed `series`, missing `serie` all yield an empty list), but the
single-value assertions `s.(map[string]interface{})`,
`serie["localidade"].(map[string]interface{})` and
`localidade["nome"].(string)` are unchecked: a decoded payload whose series
entry lacks `localidade` — or whose `resultados[0]`/series element is not an
object — makes `GetPopulation` panic (modelled as `none`) instead of
returning a successful empty result as the claim states. -/
theorem c2_population_extraction_bug :
    Ibge.extractPopulation [] = some [] ∧
    Ibge.extractPopulation [[("foo", Jval.str "x")]] = some [] ∧
    Ibge.extractPopulation
      [[("resultados", Jval.arr [Jval.obj [("series", Jval.str "bad")]])]] = some [] ∧
    Ibge.extractPopulation
      [[("resultados", Jval.arr [Jval.obj [("series",
          Jval.arr [Jval.obj [("serie", Jval.obj [("2021", Jval.num "213317639")])]])]])]] =
      none ∧
    Ibge.GetPopulation (fun _ => ⟨200, ""⟩)
      (fun _ => Except.ok
        [[("resultados", Jval.arr [Jval.obj [("series",
            Jval.arr [Jval.obj [("serie", Jval.obj [("2021", Jval.num "213317639")])]])]])]])
      "" = none ∧
    Ibge.extractPopulation [[("resultados", Jval.arr [Jval.str "oops"])]] = none ∧
    Ibge.extractPopulation
      [[("resultados", Jval.arr [Jval.obj [("series",
          Jval.arr [Jval.obj [("localidade", Jval.obj [("nome", Jval.str "Brasil")]),
                              ("serie", Jval.obj [("2021", Jval.num "213317639")])]])]])]] =
      some [{ location := "Brasil", year := "2021", population := "213317639" }] :=
  ⟨rfl, rfl, rfl, rfl, rfl, rfl, rfl⟩
